import Mathlib

/-!
Shallow embedding of `zk-payment-mixer/contracts/Mixer.sol` (Solidity 0.8.20).

Storage is modelled by `MixerState`; `bytes32`, `uint256` and `address`
values are modelled as `Nat` (the claims never depend on 256-bit wraparound:
the contract performs no arithmetic on them beyond equality tests and the
fixed-amount transfer). External behaviour (the `Verifier` contract and the
recipient's reaction to the low-level call) is an `Env` parameter. Solidity
`require` failures revert the whole call, so each entry point returns
`Except MixerError MixerState`: on an error the caller keeps the pre-state.
-/

namespace Mixer

/-- Solidity `uint256 public constant DEPOSIT_AMOUNT = 0.1 ether;` in wei. -/
def DEPOSIT_AMOUNT : Nat := 100000000000000000

/-- A Groth16 proof as passed to `withdraw`:
`uint256[2] a, uint256[2][2] b, uint256[2] c`. -/
structure Groth16Proof where
  a : Nat × Nat
  b : (Nat × Nat) × (Nat × Nat)
  c : Nat × Nat
deriving DecidableEq, Repr

/-- External world of a call: the deployed `Verifier` contract
(`verifier.verifyProof(a, b, c, inputs)` — `none` models the external call
reverting, `some ok` a normal boolean return) and whether the plain
low-level call `recipient.call{value: ...}("")` is accepted by the
recipient's code. -/
structure Env where
  verifier : Groth16Proof → List Nat → Option Bool
  recipientAccepts : Nat → Bool

/-- Contract storage plus observable ether balances:
`mapping(bytes32 => bool) nullifiers`, `mapping(bytes32 => bool) commitments`
(as the finite sets of keys mapped to true), `bytes32[] merkleRoots`,
the `Pausable` flag, `address(this).balance`, and the balances of external
accounts (`extBal`). -/
structure MixerState where
  nullifiers : Finset Nat
  commitments : Finset Nat
  merkleRoots : List Nat
  paused : Bool
  balance : Nat
  extBal : Nat → Nat

/-- The revert reasons of the contract (one per `require` / modifier), plus
`VerifierRevert` for a revert raised inside the external
`verifier.verifyProof` call, which `withdraw` does not catch and therefore
propagates verbatim. -/
inductive MixerError where
  | SystemPaused      -- "Pausable: paused"   (whenNotPaused modifier)
  | NotPaused         -- "Pausable: not paused" (whenPaused inside _unpause)
  | WrongAmount       -- "Incorrect deposit amount"
  | CommitmentExists  -- "Commitment exists"
  | InvalidRecipient  -- "Invalid recipient"
  | NullifierUsed     -- "Nullifier used"
  | InvalidRoot       -- "Invalid root"
  | InvalidProof      -- "Invalid proof"
  | VerifierRevert    -- revert bubbled up from verifier.verifyProof
  | TransferFailed    -- "Transfer failed"
deriving DecidableEq, Repr

/-- The `for` loop of `isValidRoot`: scan `merkleRoots`, return `true`
at the first index holding `root`, `false` after the last index. -/
def scanRoots : List Nat → Nat → Bool
  | [], _ => false
  | r :: rs, root => if r = root then true else scanRoots rs root

/-- Source `function isValidRoot(bytes32 root) public view returns (bool)`. -/
def isValidRoot (s : MixerState) (root : Nat) : Bool :=
  scanRoots s.merkleRoots root

/-- The constructor: empty mappings, `merkleRoots.push(bytes32(0))`
(genesis root), not paused, no ether held. External balances are whatever
the surrounding chain state says (`eb`). -/
def initState (eb : Nat → Nat) : MixerState :=
  { nullifiers := ∅
    commitments := ∅
    merkleRoots := [0]
    paused := false
    balance := 0
    extBal := eb }

/-- Source `function deposit(bytes32 commitment) external payable whenNotPaused
nonReentrant`. `msgValue` is `msg.value`; on success it has been credited
to the contract. -/
def deposit (s : MixerState) (commitment : Nat) (msgValue : Nat) :
    Except MixerError MixerState :=
  if s.paused then .error .SystemPaused
  else if msgValue = DEPOSIT_AMOUNT then
    if commitment ∈ s.commitments then .error .CommitmentExists
    else .ok { s with
      commitments := insert commitment s.commitments
      balance := s.balance + msgValue }
  else .error .WrongAmount

/-- Source `function withdraw(a, b, c, root, nullifierHash, recipient) external
whenNotPaused nonReentrant`, following the body statement by statement:
the three `require`s, the uncaught external `verifier.verifyProof` call on
`[uint256(root), uint256(nullifierHash), uint256(uint160(recipient))]`,
`nullifiers[nullifierHash] = true`, the low-level value transfer and
`require(sent)`. A failed transfer (insufficient balance or recipient
refusing) reverts the whole call, nullifier mark included. -/
def withdraw (env : Env) (s : MixerState) (p : Groth16Proof)
    (root nullifierHash recipient : Nat) : Except MixerError MixerState :=
  if s.paused then .error .SystemPaused
  else if recipient = 0 then .error .InvalidRecipient
  else if nullifierHash ∈ s.nullifiers then .error .NullifierUsed
  else if isValidRoot s root = false then .error .InvalidRoot
  else
    match env.verifier p [root, nullifierHash, recipient] with
    | none => .error .VerifierRevert
    | some false => .error .InvalidProof
    | some true =>
      if decide (DEPOSIT_AMOUNT ≤ s.balance) && env.recipientAccepts recipient then
        .ok { s with
          nullifiers := insert nullifierHash s.nullifiers
          balance := s.balance - DEPOSIT_AMOUNT
          extBal := fun a =>
            if a = recipient then s.extBal a + DEPOSIT_AMOUNT else s.extBal a }
      else .error .TransferFailed

/-- Source `function addMerkleRoot(bytes32 newRoot) external onlyOwner`:
`merkleRoots.push(newRoot)`. -/
def addMerkleRoot (s : MixerState) (newRoot : Nat) : MixerState :=
  { s with merkleRoots := s.merkleRoots ++ [newRoot] }

/-- Source `function pause() external onlyOwner { _pause(); }` —
OpenZeppelin `_pause` carries `whenNotPaused`. -/
def pause (s : MixerState) : Except MixerError MixerState :=
  if s.paused then .error .SystemPaused else .ok { s with paused := true }

/-- Source `function unpause() external onlyOwner { _unpause(); }` —
OpenZeppelin `_unpause` carries `whenPaused`. -/
def unpause (s : MixerState) : Except MixerError MixerState :=
  if s.paused then .ok { s with paused := false } else .error .NotPaused

/-- The externally callable state-changing operations of the contract
(owner-gated ones included; the owner check restricts callers, not
reachable storage states). -/
inductive Op where
  | deposit (commitment msgValue : Nat)
  | withdraw (p : Groth16Proof) (root nullifierHash recipient : Nat)
  | addMerkleRoot (newRoot : Nat)
  | pause
  | unpause
deriving Repr

/-- One transaction: a reverted call leaves the chain state unchanged. -/
def step (env : Env) (s : MixerState) : Op → MixerState
  | .deposit c v =>
    match deposit s c v with | .ok s' => s' | .error _ => s
  | .withdraw p root h rec =>
    match withdraw env s p root h rec with | .ok s' => s' | .error _ => s
  | .addMerkleRoot r => addMerkleRoot s r
  | .pause =>
    match pause s with | .ok s' => s' | .error _ => s
  | .unpause =>
    match unpause s with | .ok s' => s' | .error _ => s

/-- A sequence of transactions, each with its own external behaviour. -/
def run (s : MixerState) : List (Env × Op) → MixerState
  | [] => s
  | eo :: rest => run (step eo.1 s eo.2) rest

/-- States reachable from deployment by any sequence of calls. -/
inductive Reachable : MixerState → Prop where
  | init (eb : Nat → Nat) : Reachable (initState eb)
  | next (s : MixerState) (env : Env) (op : Op) :
      Reachable s → Reachable (step env s op)

/-- The primitive steps of the `withdraw` body, in source order:
the pause modifier, the three `require` checks, the external verifier
call, the nullifier-registry write, the low-level value transfer, and the
`Withdrawal` event emission. -/
inductive WStep where
  | checkPaused
  | checkRecipient
  | checkNullifier
  | checkRoot
  | callVerifier
  | markNullifier
  | transfer
  | emitWithdrawal
deriving DecidableEq, Repr

/-- Whether a `withdraw` step writes the nullifier registry, the root
history or the commitment set (the transfer and the event touch only
ether balances / logs). -/
def mutatesCore : WStep → Bool
  | .markNullifier => true
  | _ => false

/-- The ordered list of primitive steps an execution of `withdraw`
performs before terminating (normally or by revert), statement by
statement from the source: each check appears when control reaches it,
and execution stops at the first failing `require` / at the verifier
revert. -/
def withdrawTrace (env : Env) (s : MixerState) (p : Groth16Proof)
    (root nullifierHash recipient : Nat) : List WStep :=
  .checkPaused :: (if s.paused then [] else
  .checkRecipient :: (if recipient = 0 then [] else
  .checkNullifier :: (if nullifierHash ∈ s.nullifiers then [] else
  .checkRoot :: (if isValidRoot s root = false then [] else
  .callVerifier :: (match env.verifier p [root, nullifierHash, recipient] with
    | none => []
    | some false => []
    | some true =>
      .markNullifier :: .transfer ::
        (if decide (DEPOSIT_AMOUNT ≤ s.balance) && env.recipientAccepts recipient
         then [.emitWithdrawal] else []))))))

/-! ## Inversion lemmas -/

/-- The `deposit` call succeeds exactly when the pause gate and the two `require`s
pass, and then its only effects are the commitment insert and the credited
`msg.value`. -/
theorem deposit_ok_iff (s : MixerState) (c v : Nat) (s' : MixerState) :
    deposit s c v = .ok s' ↔
      s.paused = false ∧ v = DEPOSIT_AMOUNT ∧ c ∉ s.commitments ∧
      s' = { s with commitments := insert c s.commitments,
                    balance := s.balance + v } := by
  unfold deposit
  by_cases hp : s.paused = true <;>
    by_cases hv : v = DEPOSIT_AMOUNT <;>
      by_cases hc : c ∈ s.commitments <;>
        simp [hp, hv, hc, eq_comm, Bool.not_eq_true] at *

/-- The `withdraw` call succeeds exactly when the pause gate, the three `require`s,
the verifier call and the transfer all pass, and then its effects are the
nullifier mark and the value transfer. -/
theorem withdraw_ok_iff (env : Env) (s : MixerState) (p : Groth16Proof)
    (root h rec : Nat) (s' : MixerState) :
    withdraw env s p root h rec = .ok s' ↔
      s.paused = false ∧ rec ≠ 0 ∧ h ∉ s.nullifiers ∧
      isValidRoot s root = true ∧
      env.verifier p [root, h, rec] = some true ∧
      DEPOSIT_AMOUNT ≤ s.balance ∧ env.recipientAccepts rec = true ∧
      s' = { s with
        nullifiers := insert h s.nullifiers
        balance := s.balance - DEPOSIT_AMOUNT
        extBal := fun a =>
          if a = rec then s.extBal a + DEPOSIT_AMOUNT else s.extBal a } := by
  unfold withdraw
  by_cases hp : s.paused = true <;>
    by_cases hr : rec = 0 <;>
      by_cases hn : h ∈ s.nullifiers <;>
        by_cases hro : isValidRoot s root = false <;>
          simp [hp, hr, hn, hro, Bool.not_eq_true, Bool.not_eq_false] at *
  rcases hv : env.verifier p [root, h, rec] with _ | b
  · simp [hv]
  · cases b <;> simp [hv]
    by_cases hs : DEPOSIT_AMOUNT ≤ s.balance ∧ env.recipientAccepts rec = true
    · rw [if_pos hs]
      simp [hs.1, hs.2]
      exact eq_comm
    · rw [if_neg hs]
      constructor
      · intro hw
        exact absurd hw (by simp)
      · intro hw
        exact absurd ⟨hw.1, hw.2.1⟩ hs

/-- A reverted `deposit`: wrong `msg.value` (checked first, after the
pause gate). -/
theorem deposit_wrongAmount (s : MixerState) (c v : Nat)
    (hp : s.paused = false) (hv : v ≠ DEPOSIT_AMOUNT) :
    deposit s c v = .error .WrongAmount := by
  unfold deposit; simp [hp, hv]

/-- A reverted `deposit`: duplicate commitment (checked second). -/
theorem deposit_duplicate (s : MixerState) (c v : Nat)
    (hp : s.paused = false) (hv : v = DEPOSIT_AMOUNT)
    (hc : c ∈ s.commitments) :
    deposit s c v = .error .CommitmentExists := by
  unfold deposit; simp [hp, hv, hc]

/-- A reverted `withdraw`: the pause gate fires before everything else. -/
theorem withdraw_paused (env : Env) (s : MixerState) (p : Groth16Proof)
    (root h rec : Nat) (hp : s.paused = true) :
    withdraw env s p root h rec = .error .SystemPaused := by
  unfold withdraw; simp [hp]

/-- A reverted `withdraw`: null recipient, first `require`. -/
theorem withdraw_nullRecipient (env : Env) (s : MixerState)
    (p : Groth16Proof) (root h rec : Nat)
    (hp : s.paused = false) (hr : rec = 0) :
    withdraw env s p root h rec = .error .InvalidRecipient := by
  unfold withdraw; simp [hp, hr]

/-- A reverted `withdraw`: spent nullifier, second `require`. -/
theorem withdraw_spent (env : Env) (s : MixerState) (p : Groth16Proof)
    (root h rec : Nat) (hp : s.paused = false) (hr : rec ≠ 0)
    (hn : h ∈ s.nullifiers) :
    withdraw env s p root h rec = .error .NullifierUsed := by
  unfold withdraw; simp [hp, hr, hn]

/-- A reverted `withdraw`: unknown root, third `require`. -/
theorem withdraw_badRoot (env : Env) (s : MixerState) (p : Groth16Proof)
    (root h rec : Nat) (hp : s.paused = false) (hr : rec ≠ 0)
    (hn : h ∉ s.nullifiers) (hro : isValidRoot s root = false) :
    withdraw env s p root h rec = .error .InvalidRoot := by
  unfold withdraw; simp [hp, hr, hn, hro]

/-- A reverted `withdraw`: the verifier returns `false`. -/
theorem withdraw_falseProof (env : Env) (s : MixerState) (p : Groth16Proof)
    (root h rec : Nat) (hp : s.paused = false) (hr : rec ≠ 0)
    (hn : h ∉ s.nullifiers) (hro : isValidRoot s root = true)
    (hv : env.verifier p [root, h, rec] = some false) :
    withdraw env s p root h rec = .error .InvalidProof := by
  unfold withdraw; simp [hp, hr, hn, hro, hv]

/-- A reverted `withdraw`: the verifier call itself reverts; the revert
bubbles up uncaught. -/
theorem withdraw_verifierRevert (env : Env) (s : MixerState)
    (p : Groth16Proof) (root h rec : Nat)
    (hp : s.paused = false) (hr : rec ≠ 0) (hn : h ∉ s.nullifiers)
    (hro : isValidRoot s root = true)
    (hv : env.verifier p [root, h, rec] = none) :
    withdraw env s p root h rec = .error .VerifierRevert := by
  unfold withdraw; simp [hp, hr, hn, hro, hv]

/-- The `withdraw` call consults the external world only through
`verifier.verifyProof` at the single argument vector
`[root, nullifierHash, recipient]` and through the recipient's reaction to
the transfer: two environments agreeing there yield identical outcomes. -/
theorem withdraw_env_pointwise (env env' : Env) (s : MixerState)
    (p : Groth16Proof) (root h rec : Nat)
    (hva : env'.verifier p [root, h, rec] = env.verifier p [root, h, rec])
    (hra : env'.recipientAccepts rec = env.recipientAccepts rec) :
    withdraw env' s p root h rec = withdraw env s p root h rec := by
  unfold withdraw
  rw [hva, hra]

/-- No operation ever removes a hash from the nullifier registry. -/
theorem step_nullifiers_mono (env : Env) (s : MixerState) (op : Op) :
    s.nullifiers ⊆ (step env s op).nullifiers := by
  cases op with
  | deposit c v =>
    simp only [step]
    cases hd : deposit s c v with
    | ok s' =>
      rw [deposit_ok_iff] at hd
      rw [hd.2.2.2]
    | error e => exact fun x hx => hx
  | withdraw p root h rec =>
    simp only [step]
    cases hw : withdraw env s p root h rec with
    | ok s' =>
      rw [withdraw_ok_iff] at hw
      rw [hw.2.2.2.2.2.2.2]
      exact fun x hx => Finset.mem_insert_of_mem hx
    | error e => exact fun x hx => hx
  | addMerkleRoot r => exact fun x hx => hx
  | pause =>
    simp only [step, pause]
    by_cases hp : s.paused = true <;> simp [hp]
  | unpause =>
    simp only [step, unpause]
    by_cases hp : s.paused = true <;> simp [hp]

/-- No operation ever removes or replaces a recorded root: the post-state
root list extends the pre-state list. -/
theorem step_merkleRoots_extend (env : Env) (s : MixerState) (op : Op) :
    ∃ l, (step env s op).merkleRoots = s.merkleRoots ++ l := by
  cases op with
  | deposit c v =>
    simp only [step]
    cases hd : deposit s c v with
    | ok s' =>
      rw [deposit_ok_iff] at hd
      exact ⟨[], by rw [hd.2.2.2]; simp⟩
    | error e => exact ⟨[], by simp⟩
  | withdraw p root h rec =>
    simp only [step]
    cases hw : withdraw env s p root h rec with
    | ok s' =>
      rw [withdraw_ok_iff] at hw
      exact ⟨[], by rw [hw.2.2.2.2.2.2.2]; simp⟩
    | error e => exact ⟨[], by simp⟩
  | addMerkleRoot r => exact ⟨[r], rfl⟩
  | pause =>
    refine ⟨[], ?_⟩
    simp only [step, pause]
    by_cases hp : s.paused = true <;> simp [hp]
  | unpause =>
    refine ⟨[], ?_⟩
    simp only [step, unpause]
    by_cases hp : s.paused = true <;> simp [hp]

/-- Scanning an extended root list still finds every previously found
root. -/
theorem scanRoots_append (xs l : List Nat) (r : Nat)
    (hx : scanRoots xs r = true) : scanRoots (xs ++ l) r = true := by
  induction xs with
  | nil => simp [scanRoots] at hx
  | cons y ys ih =>
    simp only [scanRoots, List.cons_append] at *
    by_cases hy : y = r
    · simp [hy]
    · simp [hy] at hx ⊢
      exact ih hx

/-- Root validity is monotone along a single transaction. -/
theorem step_isValidRoot_mono (env : Env) (s : MixerState) (op : Op)
    (r : Nat) (hr : isValidRoot s r = true) :
    isValidRoot (step env s op) r = true := by
  obtain ⟨l, hl⟩ := step_merkleRoots_extend env s op
  unfold isValidRoot at *
  rw [hl]
  exact scanRoots_append _ _ _ hr

/-- Root validity is monotone along any sequence of transactions. -/
theorem run_isValidRoot_mono (s : MixerState) (l : List (Env × Op))
    (r : Nat) (hr : isValidRoot s r = true) :
    isValidRoot (run s l) r = true := by
  induction l generalizing s with
  | nil => exact hr
  | cons eo rest ih =>
    exact ih _ (step_isValidRoot_mono eo.1 s eo.2 r hr)

/-! ## Concrete fixtures for witnesses and counterexamples -/

/-- Whether a call succeeded. -/
def isOk : Except MixerError MixerState → Bool
  | .ok _ => true
  | .error _ => false

/-- The post-state of a call, or `d` if it reverted. -/
def getOr (d : MixerState) : Except MixerError MixerState → MixerState
  | .ok s => s
  | .error _ => d

/-- An all-zero Groth16 proof (as the repository's own tests submit). -/
def p0 : Groth16Proof := ⟨(0, 0), ((0, 0), (0, 0)), (0, 0)⟩

/-- A verifier that accepts everything; transfers always accepted. -/
def envTrue : Env := ⟨fun _ _ => some true, fun _ => true⟩

/-- A verifier that rejects everything; transfers always accepted. -/
def envFalse : Env := ⟨fun _ _ => some false, fun _ => true⟩

/-- A verifier whose call always reverts; transfers always accepted. -/
def envRevert : Env := ⟨fun _ _ => none, fun _ => true⟩

/-- External accounts all start empty. -/
def eb0 : Nat → Nat := fun _ => 0

/-- The freshly deployed contract. -/
def s0 : MixerState := initState eb0

/-- Deployment state with nullifier hash 5 already spent. -/
def s1 : MixerState := { s0 with nullifiers := {5} }

/-- Deployment state holding one deposit's worth of ether. -/
def sFunded : MixerState := { s0 with balance := DEPOSIT_AMOUNT }

/-- Deployment state already holding 2^20 distinct commitments. -/
def sBig : MixerState := { s0 with commitments := Finset.range 1048576 }

/-- The state the contract reaches after `deposit(17)` on `s0`. -/
def sAfterDep : MixerState :=
  { s0 with
    commitments := insert 17 s0.commitments
    balance := s0.balance + DEPOSIT_AMOUNT }

/-! ## Claims -/

/-- Claim C1: a nullifier hash moves from unspent to spent at most once
and never back — a successful `withdraw` marks its hash spent, no
operation ever unmarks a spent hash, and once spent no `withdraw` with
that hash can succeed: it reverts with "Nullifier used" for every proof
and every verifier behaviour, as soon as the call passes the pause gate
and the recipient check that the source evaluates before the nullifier
check. -/
theorem C1_nullifier_spent_at_most_once
    (env : Env) (s : MixerState) (p : Groth16Proof) (root h rec : Nat) :
    (∀ s', withdraw env s p root h rec = .ok s' → h ∈ s'.nullifiers) ∧
    (∀ env' op, h ∈ s.nullifiers → h ∈ (step env' s op).nullifiers) ∧
    (h ∈ s.nullifiers →
      (∀ s', withdraw env s p root h rec ≠ .ok s') ∧
      (s.paused = false → rec ≠ 0 →
        withdraw env s p root h rec = .error .NullifierUsed)) := by
  refine ⟨?_, ?_, ?_⟩
  · intro s' hw
    rw [withdraw_ok_iff] at hw
    rw [hw.2.2.2.2.2.2.2]
    exact Finset.mem_insert_self h s.nullifiers
  · intro env' op hh
    exact step_nullifiers_mono env' s op hh
  · intro hh
    refine ⟨?_, ?_⟩
    · intro s' hw
      rw [withdraw_ok_iff] at hw
      exact hw.2.2.1 hh
    · intro hp hr
      exact withdraw_spent env s p root h rec hp hr hh

/-- On a state with nullifier 5 already spent, a repeat `withdraw` with
hash 5 reverts with "Nullifier used" even under an always-accepting
verifier. -/
theorem C1_nullifier_spent_at_most_once_witness :
    withdraw envTrue s1 p0 0 5 1 = .error .NullifierUsed :=
  ((C1_nullifier_spent_at_most_once envTrue s1 p0 0 5 1).2.2
    (by decide)).2 rfl (by decide)

/-- The genesis root pushed by the constructor stays valid in every
reachable state. -/
theorem reachable_genesis_valid (s : MixerState) (hs : Reachable s) :
    isValidRoot s 0 = true := by
  induction hs with
  | init eb => rfl
  | next s env op _ ih => exact step_isValidRoot_mono env s op 0 ih

/-- Claim C9: the root history is append-only and monotone — every
transaction extends `merkleRoots` (never removes or replaces an entry),
a root once valid stays valid along any sequence of transactions, and the
genesis root `bytes32(0)` pushed at construction is valid in every
reachable state. -/
theorem C9_root_history_append_only :
    (∀ env s op, ∃ l, (step env s op).merkleRoots = s.merkleRoots ++ l) ∧
    (∀ s l r, isValidRoot s r = true → isValidRoot (run s l) r = true) ∧
    (∀ s, Reachable s → isValidRoot s 0 = true) :=
  ⟨step_merkleRoots_extend,
   run_isValidRoot_mono,
   reachable_genesis_valid⟩

/-- The genesis root is still valid after an `addMerkleRoot(7)`
transaction, and it is valid on the deployment state itself. -/
theorem C9_root_history_append_only_witness :
    isValidRoot (run s0 [(envTrue, Op.addMerkleRoot 7)]) 0 = true ∧
    isValidRoot s0 0 = true :=
  ⟨C9_root_history_append_only.2.1 s0 [(envTrue, Op.addMerkleRoot 7)] 0 rfl,
   C9_root_history_append_only.2.2 s0 (Reachable.init eb0)⟩

/-- Claim C3: on an unpaused state, `withdraw`'s preconditions are
evaluated in source order — recipient non-null, nullifier unspent, root
recorded, proof verifies — and the call reverts with the error of the
first failing check; when the root is unknown the call reverts with
"Invalid root" under every environment, so the verifier is not consulted
in that case. -/
theorem C3_precondition_order
    (env : Env) (s : MixerState) (p : Groth16Proof) (root h rec : Nat)
    (hp : s.paused = false) :
    (rec = 0 → withdraw env s p root h rec = .error .InvalidRecipient) ∧
    (rec ≠ 0 → h ∈ s.nullifiers →
      withdraw env s p root h rec = .error .NullifierUsed) ∧
    (rec ≠ 0 → h ∉ s.nullifiers → isValidRoot s root = false →
      ∀ env' : Env, withdraw env' s p root h rec = .error .InvalidRoot) ∧
    (rec ≠ 0 → h ∉ s.nullifiers → isValidRoot s root = true →
      env.verifier p [root, h, rec] = some false →
      withdraw env s p root h rec = .error .InvalidProof) := by
  refine ⟨?_, ?_, ?_, ?_⟩
  · intro hr
    exact withdraw_nullRecipient env s p root h rec hp hr
  · intro hr hn
    exact withdraw_spent env s p root h rec hp hr hn
  · intro hr hn hro env'
    exact withdraw_badRoot env' s p root h rec hp hr hn hro
  · intro hr hn hro hv
    exact withdraw_falseProof env s p root h rec hp hr hn hro hv

/-- On the deployment state, a `withdraw` against the unrecorded root 9
reverts with "Invalid root" even under an always-accepting verifier. -/
theorem C3_precondition_order_witness :
    withdraw envTrue s0 p0 9 5 1 = .error .InvalidRoot :=
  (C3_precondition_order envTrue s0 p0 9 5 1 rfl).2.2.1
    (by decide) (by decide) rfl envTrue

/-- Claim C2 counterexample: on the freshly deployed contract the deposit
of commitment 17 succeeds, yet the root history is `[0]` both before and
after — nothing is appended, refuting "the post-state root history is the
pre-state sequence extended by exactly one new root". -/
theorem C2_counterexample :
    isOk (deposit s0 17 DEPOSIT_AMOUNT) = true ∧
    (getOr s0 (deposit s0 17 DEPOSIT_AMOUNT)).merkleRoots =
      s0.merkleRoots := ⟨rfl, rfl⟩

/-- Claim C2 amended: a successful deposit records the commitment in the
existence set but leaves the root history exactly as it was; roots are
appended only by the separate owner-only `addMerkleRoot` call, which
`deposit` never invokes. -/
theorem C2_deposit_leaves_root_history_unchanged
    (s : MixerState) (c v : Nat) (s' : MixerState)
    (hd : deposit s c v = .ok s') :
    s'.merkleRoots = s.merkleRoots ∧
    s'.commitments = insert c s.commitments ∧
    (∀ t r, (addMerkleRoot t r).merkleRoots = t.merkleRoots ++ [r]) := by
  rw [deposit_ok_iff] at hd
  rw [hd.2.2.2]
  exact ⟨rfl, rfl, fun t r => rfl⟩

/-- Depositing commitment 17 on the fresh contract leaves the root
history untouched. -/
theorem C2_deposit_leaves_root_history_unchanged_witness :
    sAfterDep.merkleRoots = s0.merkleRoots ∧
    sAfterDep.commitments = insert 17 s0.commitments ∧
    (∀ t r, (addMerkleRoot t r).merkleRoots = t.merkleRoots ++ [r]) :=
  C2_deposit_leaves_root_history_unchanged s0 17 DEPOSIT_AMOUNT
    sAfterDep rfl

/-- Claim C5 counterexample: with 2^20 distinct commitments already
present — the point the claim says must revert with CapacityExceeded —
a further deposit still succeeds: the contract tracks no leaf index and
has no capacity check at all. -/
theorem C5_counterexample :
    sBig.commitments.card = 2 ^ 20 ∧
    isOk (deposit sBig 1048576 DEPOSIT_AMOUNT) = true := by
  constructor
  · show (Finset.range 1048576).card = 2 ^ 20
    rw [Finset.card_range]
    norm_num
  · have hmem : (1048576 : Nat) ∉ sBig.commitments := by
      show ¬(1048576 ∈ Finset.range 1048576)
      simp [Finset.mem_range]
    have hd : deposit sBig 1048576 DEPOSIT_AMOUNT = .ok
        { sBig with
          commitments := insert 1048576 sBig.commitments
          balance := sBig.balance + DEPOSIT_AMOUNT } :=
      (deposit_ok_iff sBig 1048576 DEPOSIT_AMOUNT _).2
        ⟨rfl, rfl, hmem, rfl⟩
    rw [hd]
    rfl

/-- Claim C5 amended: the contract enforces no capacity bound. Under the
ordinary deposit preconditions (unpaused, exact value, fresh commitment)
the deposit arriving with 2^20 - 1 commitments present succeeds, and so
does the one arriving with 2^20 present: the depth-20 / 2^20-leaf limit
lives only in the withdrawal circuit, not in the contract, and no
CapacityExceeded failure exists. -/
theorem C5_no_capacity_bound (s : MixerState) (c : Nat)
    (hp : s.paused = false) (hc : c ∉ s.commitments) :
    (s.commitments.card = 2 ^ 20 - 1 →
      isOk (deposit s c DEPOSIT_AMOUNT) = true) ∧
    (s.commitments.card = 2 ^ 20 →
      isOk (deposit s c DEPOSIT_AMOUNT) = true) := by
  have hok : isOk (deposit s c DEPOSIT_AMOUNT) = true := by
    unfold deposit
    simp [hp, hc, isOk]
  exact ⟨fun _ => hok, fun _ => hok⟩

/-- With a full-capacity commitment set, the next deposit succeeds. -/
theorem C5_no_capacity_bound_witness :
    isOk (deposit sBig 1048576 DEPOSIT_AMOUNT) = true :=
  (C5_no_capacity_bound sBig 1048576 rfl
      (by simp [sBig, s0, initState, Finset.mem_range])).2
    (by show (Finset.range 1048576).card = 2 ^ 20
        rw [Finset.card_range]
        norm_num)

/-- Claim C6: `deposit(commitment)` with `msg.value` succeeds iff the
system is unpaused, the value equals DEPOSIT_AMOUNT and the commitment is
fresh; a differing value reverts with "Incorrect deposit amount", a
duplicate reverts with "Commitment exists"; on success the commitment is
recorded as present and custody increases by exactly the value sent. -/
theorem C6_deposit_spec (s : MixerState) (c v : Nat) :
    ((∃ s', deposit s c v = .ok s') ↔
      (s.paused = false ∧ v = DEPOSIT_AMOUNT ∧ c ∉ s.commitments)) ∧
    (s.paused = false → v ≠ DEPOSIT_AMOUNT →
      deposit s c v = .error .WrongAmount) ∧
    (s.paused = false → v = DEPOSIT_AMOUNT → c ∈ s.commitments →
      deposit s c v = .error .CommitmentExists) ∧
    (∀ s', deposit s c v = .ok s' →
      s'.commitments = insert c s.commitments ∧ c ∈ s'.commitments ∧
      s'.balance = s.balance + v ∧ s'.nullifiers = s.nullifiers) := by
  refine ⟨⟨?_, ?_⟩, ?_, ?_, ?_⟩
  · rintro ⟨s', hd⟩
    rw [deposit_ok_iff] at hd
    exact ⟨hd.1, hd.2.1, hd.2.2.1⟩
  · rintro ⟨hp, hv, hc⟩
    exact ⟨_, (deposit_ok_iff s c v _).2 ⟨hp, hv, hc, rfl⟩⟩
  · exact deposit_wrongAmount s c v
  · exact deposit_duplicate s c v
  · intro s' hd
    rw [deposit_ok_iff] at hd
    rw [hd.2.2.2]
    exact ⟨rfl, Finset.mem_insert_self c s.commitments, rfl, rfl⟩

/-- A wrong-value deposit reverts with "Incorrect deposit amount", and a
repeat of commitment 17 reverts with "Commitment exists". -/
theorem C6_deposit_spec_witness :
    deposit s0 17 5 = .error .WrongAmount ∧
    deposit sAfterDep 17 DEPOSIT_AMOUNT = .error .CommitmentExists :=
  ⟨(C6_deposit_spec s0 17 5).2.1 rfl (by decide),
   (C6_deposit_spec sAfterDep 17 DEPOSIT_AMOUNT).2.2.1 rfl rfl
     (by decide)⟩

/-- Claim C7 counterexample: on the deployment state, with a verifier
whose call reverts, a `withdraw` passing the first three checks fails with
the propagated verifier error — a kind distinct from "Invalid proof" —
because the contract wraps `verifier.verifyProof` in no try/catch. -/
theorem C7_counterexample :
    withdraw envRevert s0 p0 0 5 1 = .error .VerifierRevert ∧
    MixerError.VerifierRevert ≠ MixerError.InvalidProof :=
  ⟨rfl, by decide⟩

/-- Claim C7 amended: when the first three checks pass, a verifier that
returns `false` makes the call revert with "Invalid proof", but a
verifier that throws is NOT caught: its revert propagates to the caller
as a distinct error kind (the contract calls `verifier.verifyProof`
without try/catch). -/
theorem C7_verifier_revert_propagates
    (env : Env) (s : MixerState) (p : Groth16Proof) (root h rec : Nat)
    (hp : s.paused = false) (hr : rec ≠ 0) (hn : h ∉ s.nullifiers)
    (hro : isValidRoot s root = true) :
    (env.verifier p [root, h, rec] = some false →
      withdraw env s p root h rec = .error .InvalidProof) ∧
    (env.verifier p [root, h, rec] = none →
      withdraw env s p root h rec = .error .VerifierRevert ∧
      MixerError.VerifierRevert ≠ MixerError.InvalidProof) := by
  refine ⟨?_, ?_⟩
  · intro hv
    exact withdraw_falseProof env s p root h rec hp hr hn hro hv
  · intro hv
    exact ⟨withdraw_verifierRevert env s p root h rec hp hr hn hro hv,
      by decide⟩

/-- A rejecting verifier yields "Invalid proof"; a reverting one yields
the propagated error instead. -/
theorem C7_verifier_revert_propagates_witness :
    withdraw envFalse s0 p0 0 5 1 = .error .InvalidProof ∧
    withdraw envRevert s0 p0 0 5 1 = .error .VerifierRevert :=
  ⟨(C7_verifier_revert_propagates envFalse s0 p0 0 5 1 rfl
      (by decide) (by decide) rfl).1 rfl,
   ((C7_verifier_revert_propagates envRevert s0 p0 0 5 1 rfl
      (by decide) (by decide) rfl).2 rfl).1⟩

/-- Claim C8 counterexample: on the unfunded deployment state all four
claimed preconditions hold (unpaused, recipient 1 non-null, nullifier 5
unspent, genesis root valid, proof accepted by the verifier), yet the
withdrawal does not succeed — it reverts with "Transfer failed" because
the contract holds less than DEPOSIT_AMOUNT. -/
theorem C8_counterexample :
    s0.paused = false ∧ (1 : Nat) ≠ 0 ∧ (5 : Nat) ∉ s0.nullifiers ∧
    isValidRoot s0 0 = true ∧
    envTrue.verifier p0 [0, 5, 1] = some true ∧
    withdraw envTrue s0 p0 0 5 1 = .error .TransferFailed :=
  ⟨rfl, by decide, by decide, rfl, rfl, rfl⟩

/-- Claim C8 amended: when the four preconditions hold AND the transfer
itself goes through (custody holds at least DEPOSIT_AMOUNT and the
recipient accepts the call), the withdrawal succeeds and its exact effect
is: the nullifier hash becomes spent, the recipient's balance grows by
exactly DEPOSIT_AMOUNT, custody shrinks by the same, and nothing else
changes; moreover the verifier is consulted only at the public input
vector `[root, nullifierHash, recipient]`, in that order. -/
theorem C8_withdraw_success_effects
    (env : Env) (s : MixerState) (p : Groth16Proof) (root h rec : Nat)
    (hp : s.paused = false) (hr : rec ≠ 0) (hn : h ∉ s.nullifiers)
    (hro : isValidRoot s root = true)
    (hv : env.verifier p [root, h, rec] = some true)
    (hb : DEPOSIT_AMOUNT ≤ s.balance)
    (ha : env.recipientAccepts rec = true) :
    (∃ s', withdraw env s p root h rec = .ok s' ∧
      s'.nullifiers = insert h s.nullifiers ∧ h ∈ s'.nullifiers ∧
      s'.balance = s.balance - DEPOSIT_AMOUNT ∧
      s'.extBal rec = s.extBal rec + DEPOSIT_AMOUNT ∧
      (∀ a, a ≠ rec → s'.extBal a = s.extBal a) ∧
      s'.commitments = s.commitments ∧
      s'.merkleRoots = s.merkleRoots ∧ s'.paused = s.paused) ∧
    (∀ env' : Env,
      env'.verifier p [root, h, rec] = env.verifier p [root, h, rec] →
      env'.recipientAccepts rec = env.recipientAccepts rec →
      withdraw env' s p root h rec = withdraw env s p root h rec) := by
  refine ⟨⟨_, (withdraw_ok_iff env s p root h rec _).2
      ⟨hp, hr, hn, hro, hv, hb, ha, rfl⟩,
    rfl, Finset.mem_insert_self h s.nullifiers, rfl, ?_, ?_, rfl, rfl,
    ?_⟩, ?_⟩
  · simp
  · intro a hane
    simp [hane]
  · rfl
  · intro env' hva hra
    exact withdraw_env_pointwise env env' s p root h rec hva hra

/-- On the funded deployment state a withdrawal to recipient 1 succeeds
with exactly the stated effects. -/
theorem C8_withdraw_success_effects_witness :
    ∃ s', withdraw envTrue sFunded p0 0 5 1 = .ok s' ∧
      s'.nullifiers = insert 5 sFunded.nullifiers ∧
      5 ∈ s'.nullifiers ∧
      s'.balance = sFunded.balance - DEPOSIT_AMOUNT ∧
      s'.extBal 1 = sFunded.extBal 1 + DEPOSIT_AMOUNT ∧
      (∀ a, a ≠ 1 → s'.extBal a = sFunded.extBal a) ∧
      s'.commitments = sFunded.commitments ∧
      s'.merkleRoots = sFunded.merkleRoots ∧
      s'.paused = sFunded.paused :=
  (C8_withdraw_success_effects envTrue sFunded p0 0 5 1 rfl
    (by decide) (by decide) rfl rfl (Nat.le_refl _) rfl).1

/-- Claim C4: in every execution of `withdraw` that reaches the effect
phase, the nullifier-registry write is performed strictly before the
external transfer is attempted (in the statement trace the mark is
immediately followed by the transfer), and no registry, root-history or
accumulator mutation follows the transfer: the only step after it is the
event emission. A successful call always reaches the effect phase. -/
theorem C4_mark_spent_before_transfer
    (env : Env) (s : MixerState) (p : Groth16Proof) (root h rec : Nat) :
    (∀ s', withdraw env s p root h rec = .ok s' →
      WStep.markNullifier ∈ withdrawTrace env s p root h rec) ∧
    (WStep.markNullifier ∈ withdrawTrace env s p root h rec →
      ∃ pre post,
        withdrawTrace env s p root h rec =
          pre ++ WStep.markNullifier :: WStep.transfer :: post ∧
        (∀ a ∈ post, mutatesCore a = false) ∧
        (∀ a ∈ post, a = WStep.emitWithdrawal)) := by
  constructor
  · intro s' hw
    rw [withdraw_ok_iff] at hw
    obtain ⟨hp, hr, hn, hro, hv, hb, ha, _⟩ := hw
    simp [withdrawTrace, hp, hr, hn, hro, hv]
  · intro hm
    unfold withdrawTrace at hm ⊢
    by_cases hp : s.paused = true
    · simp [hp] at hm
    · simp only [Bool.not_eq_true] at hp
      by_cases hr : rec = 0
      · simp [hp, hr] at hm
      · by_cases hn : h ∈ s.nullifiers
        · simp [hp, hr, hn] at hm
        · by_cases hro : isValidRoot s root = false
          · simp [hp, hr, hn, hro] at hm
          · rcases hv : env.verifier p [root, h, rec] with _ | b
            · simp [hp, hr, hn, hro, hv] at hm
            · cases b
              · simp [hp, hr, hn, hro, hv] at hm
              · refine ⟨[.checkPaused, .checkRecipient, .checkNullifier,
                    .checkRoot, .callVerifier],
                  if decide (DEPOSIT_AMOUNT ≤ s.balance) &&
                      env.recipientAccepts rec = true
                  then [.emitWithdrawal] else [], ?_, ?_, ?_⟩
                · simp [hp, hr, hn, hro, hv]
                · intro a ha
                  split at ha
                  · simp at ha
                    subst ha
                    rfl
                  · simp at ha
                · intro a ha
                  split at ha
                  · simp at ha
                    exact ha
                  · simp at ha

/-- On the funded deployment state with an accepting verifier, the trace
marks the nullifier spent immediately before the transfer and only the
event emission follows. -/
theorem C4_mark_spent_before_transfer_witness :
    ∃ pre post,
      withdrawTrace envTrue sFunded p0 0 5 1 =
        pre ++ WStep.markNullifier :: WStep.transfer :: post ∧
      (∀ a ∈ post, mutatesCore a = false) ∧
      (∀ a ∈ post, a = WStep.emitWithdrawal) :=
  (C4_mark_spent_before_transfer envTrue sFunded p0 0 5 1).2 (by decide)

/-- Two mixer states agreeing on every storage component the withdrawal
path reads — nullifier registry, root history, pause flag and both
balance components — while their commitment sets may differ freely. -/
def AgreeExceptCommitments (s t : MixerState) : Prop :=
  s.nullifiers = t.nullifiers ∧ s.merkleRoots = t.merkleRoots ∧
  s.paused = t.paused ∧ s.balance = t.balance ∧ s.extBal = t.extBal

/-- Claim C10: the outcome of `withdraw` is independent of the
commitment-existence set — on two states related by
`AgreeExceptCommitments`, the same call either fails in both with the
same error, or succeeds in both with identical effects, each post-state
keeping its own commitment set unchanged. -/
theorem C10_withdraw_ignores_commitments
    (env : Env) (s t : MixerState) (p : Groth16Proof) (root h rec : Nat)
    (hag : AgreeExceptCommitments s t) :
    (∀ e, withdraw env s p root h rec = .error e ↔
          withdraw env t p root h rec = .error e) ∧
    (∀ s', withdraw env s p root h rec = .ok s' →
      ∃ t', withdraw env t p root h rec = .ok t' ∧
        AgreeExceptCommitments s' t' ∧
        s'.commitments = s.commitments ∧
        t'.commitments = t.commitments) := by
  obtain ⟨n, cs, roots, pz, bal, eb⟩ := s
  obtain ⟨n2, ct, roots2, pz2, bal2, eb2⟩ := t
  obtain ⟨h1, h2, h3, h4, h5⟩ := hag
  replace h1 : n = n2 := h1
  replace h2 : roots = roots2 := h2
  replace h3 : pz = pz2 := h3
  replace h4 : bal = bal2 := h4
  replace h5 : eb = eb2 := h5
  subst h1; subst h2; subst h3; subst h4; subst h5
  unfold withdraw
  simp only [isValidRoot]
  by_cases hp : pz = true
  · simp [hp]
  · simp only [Bool.not_eq_true] at hp
    by_cases hr : rec = 0
    · simp [hp, hr]
    · by_cases hn : h ∈ n
      · simp [hp, hr, hn]
      · by_cases hro : scanRoots roots root = false
        · simp [hp, hr, hn, hro]
        · rcases hv : env.verifier p [root, h, rec] with _ | b
          · simp [hp, hr, hn, hro, hv]
          · cases b
            · simp [hp, hr, hn, hro, hv]
            · by_cases hsend : (decide (DEPOSIT_AMOUNT ≤ bal) &&
                  env.recipientAccepts rec) = true
              · simp only [hp, hr, hn, hro, hv, hsend]
                simp
                exact ⟨rfl, rfl, rfl, rfl, rfl⟩
              · simp [hp, hr, hn, hro, hv, hsend]

/-- Two deployment states, one holding commitment 17 and one holding
none, reject the same withdrawal with the same "Transfer failed" error. -/
theorem C10_withdraw_ignores_commitments_witness :
    withdraw envTrue { s0 with commitments := {17} } p0 0 5 1 =
        .error .TransferFailed ↔
      withdraw envTrue s0 p0 0 5 1 = .error .TransferFailed :=
  (C10_withdraw_ignores_commitments envTrue
      { s0 with commitments := {17} } s0 p0 0 5 1
      ⟨rfl, rfl, rfl, rfl, rfl⟩).1 .TransferFailed

end Mixer
